import Mathlib

/-!
Shallow embedding of the request pipeline of the cordiverse/http repository.

The embedding covers the two client variants that the claims cite inside
src/packages/core/src/index.ts (a fetch-based variant, called V1 below, and an
undici-based variant, called V2 below), together with the chain-walking
mergeConfig of src/packages/http/src/index.ts.  Plain JS objects (configs,
headers, params) are modelled as records over association lists; optional JS
properties become Option fields; promise rejection becomes Except.
-/

set_option autoImplicit false

universe u

/-- A plain JS string-valued object, e.g. a headers dictionary, modelled as an
insertion-ordered association list.  JS object literals cannot repeat a key, so
lists built by the operations below keep keys distinct. -/
abbrev Dict := List (String × String)

/-- First value bound to a key (JS property read). -/
def dictGet : Dict → String → Option String
  | [], _ => none
  | p :: d, k => if p.1 = k then some p.2 else dictGet d k

/-- Last value bound to a key; agrees with dictGet on the duplicate-free
lists that JS objects denote. -/
def dictGetLast : Dict → String → Option String
  | [], _ => none
  | p :: d, k =>
    match dictGetLast d k with
    | some v => some v
    | none => if p.1 = k then some p.2 else none

/-- JS property assignment: an existing key is updated in place (keeping its
position, as JS object spread does), a new key is appended. -/
def dictSet : Dict → String → String → Dict
  | [], k, v => [(k, v)]
  | p :: d, k, v => if p.1 = k then (k, v) :: d else p :: dictSet d k v

/-- JS object spread of b over a: per-key union, b wins. -/
def dictUnion (a b : Dict) : Dict :=
  b.foldl (fun d p => dictSet d p.1 p.2) a

/-- ASCII lower-casing of one character (header names are ASCII). -/
def charLower (c : Char) : Char :=
  if 'A' ≤ c && c ≤ 'Z' then Char.ofNat (c.toNat + 32) else c

/-- ASCII lower-casing, written over the character list so that it reduces. -/
def strLower (s : String) : String :=
  String.mk (s.toList.map charLower)

/-- Whether pre starts s, written over character lists so that it reduces. -/
def strStartsWith (s pre : String) : Bool :=
  pre.toList.isPrefixOf s.toList

/-- Case-insensitive read, as the web Headers class performs. -/
def headerGet (d : Dict) (k : String) : Option String :=
  (d.find? (fun p => strLower p.1 = strLower k)).map (fun p => p.2)

/-- Case-insensitive membership, as Headers.has performs. -/
def headerHas (d : Dict) (k : String) : Bool :=
  d.any (fun p => strLower p.1 = strLower k)

/-- External cancellation token (AbortSignal): aborted flag plus reason. -/
structure Signal where
  aborted : Bool
  reason : String
  deriving Repr, DecidableEq

/-- A JS request body value, distinguished exactly as encodeRequest in the
source distinguishes it: the five recognized raw-body classes pass through
unchanged, anything else that is an object is JSON-serialized, and a string is
not an object at all. -/
inductive JSData where
  | urlSearchParams (payload : String)
  | arrayBufferData (payload : String)
  | arrayBufferView (payload : String)
  | blobData (payload : String)
  | formDataValue (payload : String)
  | jsObject (payload : String)
  | strData (payload : String)
  deriving Repr, DecidableEq

/-- Opaque model of JSON.stringify on a value already known to be an object. -/
def jsonStringify : JSData → String
  | .urlSearchParams p | .arrayBufferData p | .arrayBufferView p
  | .blobData p | .formDataValue p | .jsObject p | .strData p => p

/-- encodeRequest from src/packages/core/src/index.ts: returns the content
type to inject (if any) and the body to send. -/
def encodeRequest : JSData → Option String × JSData
  | .urlSearchParams p => (none, .urlSearchParams p)
  | .arrayBufferData p => (none, .arrayBufferData p)
  | .arrayBufferView p => (none, .arrayBufferView p)
  | .blobData p => (none, .blobData p)
  | .formDataValue p => (none, .formDataValue p)
  | d => (some "application/json", .strData (jsonStringify d))

/-- JS `typeof data === 'object'` over the modelled body values. -/
def isObjectType : JSData → Bool
  | .strData _ => false
  | _ => true

/-- HTTP.RequestConfig: one record serves instance configs, intercept-chain
layers and per-call configs, since JS merges them by untyped object spread.
An absent JS property is none; headers is total with default since the
source always rebuilds it as a spread union. -/
structure RequestConfig where
  baseURL : Option String := none
  endpoint : Option String := none
  headers : Dict := []
  timeout : Option Nat := none
  method : Option String := none
  params : Option (List (String × Option String)) := none
  data : Option JSData := none
  keepAlive : Option Bool := none
  redirect : Option String := none
  signal : Option Signal := none
  responseType : Option String := none
  validateStatus : Option (Nat → Bool) := none

/-- HTTP.mergeConfig (identical in both core variants):
spread target, then source, then an explicit per-key union of the headers.
A missing source object is spread as a no-op. -/
def mergeConfig (target : RequestConfig) (source : Option RequestConfig) : RequestConfig :=
  let s := source.getD {}
  { baseURL := s.baseURL <|> target.baseURL
    endpoint := s.endpoint <|> target.endpoint
    headers := dictUnion target.headers s.headers
    timeout := s.timeout <|> target.timeout
    method := s.method <|> target.method
    params := s.params <|> target.params
    data := s.data <|> target.data
    keepAlive := s.keepAlive <|> target.keepAlive
    redirect := s.redirect <|> target.redirect
    signal := s.signal <|> target.signal
    responseType := s.responseType <|> target.responseType
    validateStatus := s.validateStatus <|> target.validateStatus }

/-- resolveConfig of the fetch-based core variant: start from the instance
config (the source writes it as an object literal of an empty headers object
spread under this.config, which the headers-total record already denotes),
notify observers (a pure no-op here), then walk the intercept chain from the
calling scope to the root merging each layer, and finally merge the per-call
config.  A chain entry is none when that scope sets no http intercept. -/
def resolveConfig (instanceConfig : RequestConfig) (chain : List (Option RequestConfig))
    (init : Option RequestConfig) : RequestConfig :=
  let result := instanceConfig
  let result := chain.foldl (fun r layer => mergeConfig r layer) result
  mergeConfig result init

/-- One merge step of the mergeConfig closure in src/packages/http/src/index.ts:
spread the accumulated result, then the plugin instance config again, then an
explicit headers key unioning the accumulated headers with the layer headers.
Note the layer contributes only its headers; its other fields are never read. -/
def httpMergeStep (config result : RequestConfig) (init : Option RequestConfig) : RequestConfig :=
  { baseURL := config.baseURL <|> result.baseURL
    endpoint := config.endpoint <|> result.endpoint
    headers := dictUnion result.headers ((init.map (fun i => i.headers)).getD [])
    timeout := config.timeout <|> result.timeout
    method := config.method <|> result.method
    params := config.params <|> result.params
    data := config.data <|> result.data
    keepAlive := config.keepAlive <|> result.keepAlive
    redirect := config.redirect <|> result.redirect
    signal := config.signal <|> result.signal
    responseType := config.responseType <|> result.responseType
    validateStatus := config.validateStatus <|> result.validateStatus }

/-- mergeConfig of src/packages/http/src/index.ts: walk the intercept chain
applying httpMergeStep per layer, then apply the same step once more with the
per-call config. -/
def httpMergeConfig (config : RequestConfig) (chain : List (Option RequestConfig))
    (init : Option RequestConfig) : RequestConfig :=
  let result := config
  let result := chain.foldl (fun r layer => httpMergeStep config r layer) result
  httpMergeStep config result init

/-- Specification-side definition for claim C1, following the spec text
literally: walk the scope chain from the calling scope to the root and at each
step re-merge, first the instance config and then that layer, finally merging
the per-call config.  To be compared with resolveConfig, which is translated
from the source. -/
def specC1Resolve (instanceConfig : RequestConfig) (chain : List (Option RequestConfig))
    (init : Option RequestConfig) : RequestConfig :=
  let result := instanceConfig
  let result := chain.foldl
    (fun r layer => mergeConfig (mergeConfig r (some instanceConfig)) layer) result
  mergeConfig result init

/-- A parsed URL: scheme (the protocol without its trailing colon), an opaque
remainder (authority, path and any query already present in the input string),
and the query parameters appended through url.searchParams.append, kept in
append order as the WHATWG class does. -/
structure URLRec where
  scheme : String
  rest : String
  searchParams : Dict
  deriving Repr, DecidableEq

/-- Whether a string is a syntactically valid URL scheme. -/
def validScheme (s : String) : Bool :=
  match s.toList with
  | [] => false
  | c :: cs => c.isAlpha && cs.all (fun x => x.isAlphanum || x = '+' || x = '-' || x = '.')

/-- Split a character list at its first colon. -/
def splitSchemeAux : List Char → Option (List Char × List Char)
  | [] => none
  | c :: cs =>
    if c = ':' then some ([], cs)
    else
      match splitSchemeAux cs with
      | some (scheme, rest) => some (c :: scheme, rest)
      | none => none

/-- Model of `new URL(input)` without a base: succeeds exactly when the input
carries a scheme, i.e. is an absolute URL reference. -/
def parseAbsolute (s : String) : Option URLRec :=
  match splitSchemeAux s.toList with
  | some (scheme, rest) =>
    if validScheme (String.mk scheme) then some ⟨String.mk scheme, String.mk rest, []⟩
    else none
  | none => none

/-- Coarse model of resolving a relative reference against the path of an
absolute base; no claim depends on the exact joined text. -/
def joinRelative (baseRest url : String) : String :=
  baseRest ++ "/" ++ url

/-- Parsing an input against an already-parsed base: an absolute input
ignores the base value; a relative input is joined onto it. -/
def parseWithBase (url : String) (bu : URLRec) : Option URLRec :=
  match parseAbsolute url with
  | some u => some u
  | none => some ⟨bu.scheme, joinRelative bu.rest url, []⟩

/-- Model of `new URL(input, base)`.  The WHATWG constructor parses the base
first: a given base that does not itself parse throws a TypeError even when
the input is absolute.  With a parseable (or no) base, an absolute input
ignores the base value and a relative input requires one. -/
def parseURL (url : String) (base : Option String) : Option URLRec :=
  match base with
  | none => parseAbsolute url
  | some b =>
    match parseAbsolute b with
    | none => none
    | some bu => parseWithBase url bu

/-- trimSlash from cosmokit: drop a single trailing slash. -/
def trimSlash (s : String) : String :=
  match s.toList.reverse with
  | c :: rest => if c = '/' then String.mk rest.reverse else s
  | [] => s

/-- The websocket scheme rewrite `url.protocol.replace(http-at-start, ws)`
expressed on the scheme (the trailing colon of protocol is untouched by it). -/
def wsRewrite (s : String) : String :=
  if strStartsWith s "http" then String.mk ('w' :: 's' :: s.toList.drop 4) else s

/-- The deprecated endpoint handling at the top of resolveURL: when a
non-empty endpoint is configured and the input is not already an absolute
URL, the trimmed endpoint is prepended to the input string. -/
def adjustEndpoint (url : String) (config : RequestConfig) : String :=
  match config.endpoint with
  | some e =>
    if e.toList.isEmpty then url
    else
      match parseAbsolute url with
      | some _ => url
      | none => trimSlash e ++ url
  | none => url

/-- The params loop of resolveURL: append every entry whose value is not
nullable as a query parameter, in insertion order, skipping nullable ones. -/
def appendParams : List (String × Option String) → URLRec → URLRec
  | [], u => u
  | p :: rest, u =>
    match p.2 with
    | none => appendParams rest u
    | some value => appendParams rest { u with searchParams := u.searchParams ++ [(p.1, value)] }

/-- resolveURL of the fetch-based core variant: optional deprecated endpoint
prepended when the input is not absolute, parse against baseURL (a parse
failure becomes a TypeError message quoting the input), websocket scheme
rewrite, then append every non-nullable params entry in insertion order. -/
def resolveURL (url : String) (config : RequestConfig) (isWebSocket : Bool) :
    Except String URLRec :=
  match parseURL (adjustEndpoint url config) config.baseURL with
  | none => Except.error ("Invalid URL: " ++ adjustEndpoint url config)
  | some u =>
    Except.ok (appendParams (config.params.getD [])
      (if isWebSocket then { u with scheme := wsRewrite u.scheme } else u))

/-- Rendering of a URL object back to a string where the source interpolates
it into an error message. -/
def urlHref (u : URLRec) : String :=
  u.scheme ++ ":" ++ u.rest

deriving instance DecidableEq for Except

/-- The body-reading capabilities of a platform fetch Response.  Each field is
the outcome the environment would deliver for the corresponding reader; json
can reject (e.g. malformed JSON), the others resolve. -/
structure RawResponse where
  url : String
  status : Nat
  statusText : String
  headers : Dict
  jsonBody : Except String String
  textBody : String
  arrayBufferBody : String
  blobBody : String
  formBody : String
  streamBody : String
  deriving Repr, DecidableEq

/-- HTTP.Response as surfaced to callers; data is none until a decode step
runs (the JS null). -/
structure ResponseV where
  url : String
  data : Option String
  status : Nat
  statusText : String
  headers : Dict
  deriving Repr, DecidableEq

/-- The errors a call can reject with: the uniform HTTPError (message, code,
optional attached response, optional transport cause), a TypeError, a bare
rethrown value (an already-aborted signal reason), or an exception escaping a
decoder. -/
inductive JSError where
  | httpError (message : String) (code : Option String) (response : Option ResponseV)
      (cause : Option String)
  | typeError (message : String)
  | thrown (reason : String)
  | decodeThrow (message : String)
  deriving Repr, DecidableEq

/-- What the transport primitive does for the one dispatch of a call: either
reject (with an HTTPError-tagged reason, e.g. the timeout abort, or any other
cause) or deliver a response. -/
inductive FetchCause where
  | httpErr (message : String) (code : Option String)
  | network (message : String)
  deriving Repr, DecidableEq

inductive FetchOutcome where
  | failure (cause : FetchCause)
  | success (raw : RawResponse)
  deriving Repr, DecidableEq

/-- The request init actually handed to the transport primitive. -/
structure SentInit where
  method : String
  headers : Dict
  body : Option JSData
  deriving Repr, DecidableEq

/-- Result of one call: the settled outcome, plus the init the transport
received, or none when the call failed before dispatching. -/
structure InvokeResult where
  outcome : Except JSError ResponseV
  sent : Option SentInit
  deriving Repr, DecidableEq

/-- defaultDecoder of the core variants: content sniffing on the Content-Type
response header. -/
def defaultDecoder (raw : RawResponse) : Except String String :=
  match headerGet raw.headers "Content-Type" with
  | some t =>
    if strStartsWith t "application/json" then raw.jsonBody
    else if strStartsWith t "text/" then Except.ok raw.textBody
    else Except.ok raw.arrayBufferBody
  | none => Except.ok raw.arrayBufferBody

/-- The decoder tags registered by the V1 constructor. -/
def decoderTagsV1 : List String :=
  ["json", "text", "blob", "arraybuffer", "formdata", "stream"]

/-- The decoder tags registered by the V2 constructor (adds headers). -/
def decoderTagsV2 : List String :=
  ["json", "text", "blob", "arraybuffer", "formdata", "stream", "headers"]

/-- Opaque rendering used where the headers decoder returns the Headers
object itself. -/
def dictRender (d : Dict) : String :=
  String.intercalate "," (d.map (fun p => p.1 ++ ":" ++ p.2))

/-- Behavior of the registered decoder bound to a tag; only consulted after
the registry membership check has passed. -/
def runDecoder (tag : String) (raw : RawResponse) : Except String String :=
  if tag = "json" then raw.jsonBody
  else if tag = "text" then Except.ok raw.textBody
  else if tag = "blob" then Except.ok raw.blobBody
  else if tag = "arraybuffer" then Except.ok raw.arrayBufferBody
  else if tag = "formdata" then Except.ok raw.formBody
  else if tag = "stream" then Except.ok raw.streamBody
  else if tag = "headers" then Except.ok (dictRender raw.headers)
  else Except.error "no decoder"

/-- Headers and body the V1 call builds before dispatch: the request body is
encoded when it is an object (JSON content type injected unless a Content-Type
is already present); recognized raw bodies and strings pass through. -/
def buildInitV1 (config : RequestConfig) : Dict × Option JSData :=
  match config.data with
  | some d =>
    if isObjectType d then
      let (ctype, encoded) := encodeRequest d
      match ctype with
      | some t =>
        (if headerHas config.headers "Content-Type" then config.headers
         else config.headers ++ [("Content-Type", t)], some encoded)
      | none => (config.headers, some encoded)
    else (config.headers, some d)
  | none => (config.headers, none)

/-- The settled outcome of the V1 call once the transport ran: wrap a
transport failure unless it is already an HTTPError; otherwise validate the
status (defaulting the predicate to status below 400), building the uniform
error with a best-effort decoded body whose decode failure is swallowed; on a
valid status run the requested decoder after the registry membership check, or
the default content sniffing. -/
def settleV1 (config : RequestConfig) (decoders : List String) (u : URLRec)
    (transport : FetchOutcome) : Except JSError ResponseV :=
  match transport with
  | FetchOutcome.failure cause =>
    match cause with
    | FetchCause.httpErr m c => Except.error (JSError.httpError m c none none)
    | FetchCause.network m =>
      Except.error (JSError.httpError ("fetch " ++ urlHref u ++ " failed") none none (some m))
  | FetchOutcome.success raw =>
    let response : ResponseV := ⟨raw.url, none, raw.status, raw.statusText, raw.headers⟩
    let validate := config.validateStatus.getD (fun status => decide (status < 400))
    if validate raw.status then
      match config.responseType with
      | some tag =>
        if decoders.contains tag then
          match runDecoder tag raw with
          | Except.ok v => Except.ok { response with data := some v }
          | Except.error e => Except.error (JSError.decodeThrow e)
        else Except.error (JSError.typeError ("Unknown responseType: " ++ tag))
      | none =>
        match defaultDecoder raw with
        | Except.ok v => Except.ok { response with data := some v }
        | Except.error e => Except.error (JSError.decodeThrow e)
    else
      Except.error (JSError.httpError raw.statusText none
        (some { response with data := (defaultDecoder raw).toOption }) none)

/-- The dispatch half of the V1 call: the transport receives the resolved
method, built headers and encoded body; the outcome is settled by settleV1. -/
def invokeFetchStep (config : RequestConfig) (decoders : List String) (method : String)
    (u : URLRec) (transport : FetchOutcome) : InvokeResult :=
  ⟨settleV1 config decoders u transport,
   some ⟨method, (buildInitV1 config).1, (buildInitV1 config).2⟩⟩

/-- The V1 call on an already resolved config: resolve the URL (a failure
propagates before anything else), resolve the method (positional token, else
config.method, else GET), fail straight away on an already-aborted caller
signal without dispatching, otherwise dispatch once and settle.  The timeout
timer and abort listeners of the source only matter in real time and never
change a completed outcome, so they have no pure counterpart here. -/
def invokeResolved (config : RequestConfig) (decoders : List String)
    (posMethod : Option String) (url : String) (transport : FetchOutcome) : InvokeResult :=
  match resolveURL url config false with
  | Except.error msg => ⟨Except.error (JSError.typeError msg), none⟩
  | Except.ok u =>
    match config.signal with
    | some sig =>
      if sig.aborted then ⟨Except.error (JSError.thrown sig.reason), none⟩
      else invokeFetchStep config decoders ((posMethod <|> config.method).getD "GET") u transport
    | none => invokeFetchStep config decoders ((posMethod <|> config.method).getD "GET") u transport

/-- The bare callable of the fetch-based core variant (its Service.invoke):
resolve the layered config, then run the call on it. -/
def invoke (instanceConfig : RequestConfig) (chain : List (Option RequestConfig))
    (decoders : List String) (posMethod : Option String) (url : String)
    (init : Option RequestConfig) (transport : FetchOutcome) : InvokeResult :=
  invokeResolved (resolveConfig instanceConfig chain init) decoders posMethod url transport

/-- The per-call config a two-argument verb shortcut builds: its own method
first, then the caller config spread over it. -/
def shortcutConfig (method : String) (config : Option RequestConfig) : RequestConfig :=
  let c := config.getD {}
  { c with method := c.method <|> some method }

/-- The per-call config a three-argument verb shortcut (patch, post, put)
builds: method and positional data first, then the caller config spread. -/
def shortcutDataConfig (method : String) (data : Option JSData)
    (config : Option RequestConfig) : RequestConfig :=
  let c := config.getD {}
  { c with method := c.method <|> some method, data := c.data <|> data }

/-- V1 get shortcut (delete is identical up to the method name): call the
bare callable with the built config; the caller receives response.data. -/
def getV1 (instanceConfig : RequestConfig) (chain : List (Option RequestConfig))
    (decoders : List String) (url : String) (config : Option RequestConfig)
    (transport : FetchOutcome) : InvokeResult :=
  invoke instanceConfig chain decoders none url (some (shortcutConfig "get" config)) transport

/-- V1 post shortcut (patch and put are identical up to the method name). -/
def postV1 (instanceConfig : RequestConfig) (chain : List (Option RequestConfig))
    (decoders : List String) (url : String) (data : Option JSData)
    (config : Option RequestConfig) (transport : FetchOutcome) : InvokeResult :=
  invoke instanceConfig chain decoders none url
    (some (shortcutDataConfig "post" data config)) transport

/-- Module-level default status predicate of the undici variant. -/
def validateStatusV2 (status : Nat) : Bool :=
  decide (status < 400)

/-- The raw response of a V2 call with the resolved config attached under the
private config symbol. -/
structure TaggedResponse where
  raw : RawResponse
  config : RequestConfig

/-- Result of the V2 bare callable. -/
structure InvokeResultV2 where
  outcome : Except JSError TaggedResponse
  sent : Option SentInit

/-- Modelled from the spec: the V2 resolveConfig delegates to the host
framework Service.resolveConfig, which is not part of this repository; per
the spec contract it merges the instance config with the per-call config (the
scope-chain layers, which no claim against V2 exercises, are omitted). -/
def resolveConfigV2 (instanceConfig : RequestConfig) (init : Option RequestConfig) :
    RequestConfig :=
  mergeConfig instanceConfig init

/-- The dispatch half of the V2 call: a transport failure is wrapped exactly
as in V1; a delivered response is returned raw with the config attached, with
no status validation at all. -/
def invokeFetchStepV2 (config : RequestConfig) (method : String) (u : URLRec)
    (transport : FetchOutcome) : InvokeResultV2 :=
  ⟨(match transport with
    | FetchOutcome.failure (FetchCause.httpErr m c) =>
      Except.error (JSError.httpError m c none none)
    | FetchOutcome.failure (FetchCause.network m) =>
      Except.error (JSError.httpError ("fetch " ++ urlHref u ++ " failed") none none (some m))
    | FetchOutcome.success raw => Except.ok ⟨raw, config⟩),
   some ⟨method, (buildInitV1 config).1, (buildInitV1 config).2⟩⟩

/-- The V2 bare callable on an already resolved config: same front half as V1
(URL, method, aborted-signal fast failure), then the V2 dispatch step.
Proxy-agent resolution is not modelled (no claim concerns it). -/
def invokeResolvedV2 (config : RequestConfig) (posMethod : Option String) (url : String)
    (transport : FetchOutcome) : InvokeResultV2 :=
  match resolveURL url config false with
  | Except.error msg => ⟨Except.error (JSError.typeError msg), none⟩
  | Except.ok u =>
    match config.signal with
    | some sig =>
      if sig.aborted then ⟨Except.error (JSError.thrown sig.reason), none⟩
      else invokeFetchStepV2 config ((posMethod <|> config.method).getD "GET") u transport
    | none => invokeFetchStepV2 config ((posMethod <|> config.method).getD "GET") u transport

/-- The bare callable of the undici variant. -/
def invokeV2 (instanceConfig : RequestConfig) (posMethod : Option String) (url : String)
    (init : Option RequestConfig) (transport : FetchOutcome) : InvokeResultV2 :=
  invokeResolvedV2 (resolveConfigV2 instanceConfig init) posMethod url transport

/-- The private _decode of the undici variant: validate the status with the
attached config predicate, defaulting to always-true, throwing the
STATUS_ERROR HTTPError carrying the response; then decode by responseType
(function-valued decoders are not modelled; no claim uses them) with the same
unknown-tag TypeError, or by content sniffing. -/
def decodeV2 (decoders : List String) (resp : TaggedResponse) : Except JSError String :=
  let validate := resp.config.validateStatus.getD (fun _ => true)
  if validate resp.raw.status then
    match resp.config.responseType with
    | none =>
      match defaultDecoder resp.raw with
      | Except.ok v => Except.ok v
      | Except.error e => Except.error (JSError.decodeThrow e)
    | some tag =>
      if decoders.contains tag then
        match runDecoder tag resp.raw with
        | Except.ok v => Except.ok v
        | Except.error e => Except.error (JSError.decodeThrow e)
      else Except.error (JSError.typeError ("Unknown responseType: " ++ tag))
  else
    Except.error (JSError.httpError resp.raw.statusText (some "STATUS_ERROR")
      (some ⟨resp.raw.url, none, resp.raw.status, resp.raw.statusText, resp.raw.headers⟩) none)

/-- The per-call config a V2 two-argument verb shortcut builds: its own
method and the strict default validateStatus first, then the caller config
spread over them. -/
def shortcutConfigV2 (method : String) (config : Option RequestConfig) : RequestConfig :=
  let c := config.getD {}
  { c with method := c.method <|> some method
           validateStatus := c.validateStatus <|> some validateStatusV2 }

/-- The await-then-decode tail shared by the V2 verb shortcuts. -/
def decodeStepV2 (decoders : List String) (r : InvokeResultV2) :
    Except JSError String × Option SentInit :=
  match r.outcome with
  | Except.error e => (Except.error e, r.sent)
  | Except.ok resp => (decodeV2 decoders resp, r.sent)

/-- V2 get shortcut (delete is identical up to the method name): call the
bare callable with the built config, then run _decode on the tagged
response. -/
def getV2 (instanceConfig : RequestConfig) (decoders : List String) (url : String)
    (config : Option RequestConfig) (transport : FetchOutcome) :
    Except JSError String × Option SentInit :=
  decodeStepV2 decoders
    (invokeV2 instanceConfig none url (some (shortcutConfigV2 "get" config)) transport)


theorem option_or_eq_orElse {α : Type u} (a b : Option α) : a.or b = (a <|> b) := by
  cases a <;> rfl

theorem option_orElse_assoc {α : Type u} (a b c : Option α) :
    ((a <|> b) <|> c) = (a <|> (b <|> c)) := by
  cases a <;> rfl

/-- The override a scope chain contributes for one observation g of a layer:
the value of the last (outermost, nearest-root) layer on which g is set.
Later merges win in a left fold, hence the reverse-order search. -/
def chainOverride {α : Type} (g : Option RequestConfig → Option α)
    (chain : List (Option RequestConfig)) : Option α :=
  chain.reverse.findSome? g

theorem findSome?_singleton {α β : Type} (g : α → Option β) (x : α) :
    [x].findSome? g = g x := by
  cases h : g x <;> simp [List.findSome?_cons, h]

theorem chainOverride_cons_eq {α : Type} (g : Option RequestConfig → Option α)
    (layer : Option RequestConfig) (rest : List (Option RequestConfig)) :
    chainOverride g (layer :: rest) = (chainOverride g rest <|> g layer) := by
  show (layer :: rest).reverse.findSome? g = _
  rw [List.reverse_cons, List.findSome?_append, option_or_eq_orElse, findSome?_singleton]
  rfl

/-- Left-fold characterization of the chain walk of resolveConfig: any
observation f that mergeConfig treats as source-wins-over-target is, after
the walk, the chain override when some layer sets it and the start value
otherwise. -/
theorem foldl_mergeConfig_char {α : Type} (f : RequestConfig → Option α)
    (g : Option RequestConfig → Option α)
    (hf : ∀ t s, f (mergeConfig t s) = (g s <|> f t)) :
    ∀ (chain : List (Option RequestConfig)) (r : RequestConfig),
      f (chain.foldl (fun acc layer => mergeConfig acc layer) r)
        = (chainOverride g chain <|> f r) := by
  intro chain
  induction chain with
  | nil => intro r; rfl
  | cons layer rest ih =>
    intro r
    rw [List.foldl_cons, ih, hf, chainOverride_cons_eq, option_orElse_assoc]

theorem mergeConfig_timeout (t : RequestConfig) (s : Option RequestConfig) :
    (mergeConfig t s).timeout = ((s.bind fun c => c.timeout) <|> t.timeout) := by
  cases s <;> rfl

theorem mergeConfig_baseURL (t : RequestConfig) (s : Option RequestConfig) :
    (mergeConfig t s).baseURL = ((s.bind fun c => c.baseURL) <|> t.baseURL) := by
  cases s <;> rfl

theorem mergeConfig_method (t : RequestConfig) (s : Option RequestConfig) :
    (mergeConfig t s).method = ((s.bind fun c => c.method) <|> t.method) := by
  cases s <;> rfl

theorem dictGet_dictSet (d : Dict) (k v k' : String) :
    dictGet (dictSet d k v) k' = if k = k' then some v else dictGet d k' := by
  induction d with
  | nil =>
    by_cases h : k = k' <;> simp [dictSet, dictGet, h]
  | cons p rest ih =>
    by_cases hp : p.1 = k
    · by_cases h : k = k'
      · simp [dictSet, dictGet, hp, h]
      · have hpk : ¬ p.1 = k' := fun hc => h (hp.symm.trans hc)
        simp [dictSet, dictGet, hp, h, hpk]
    · by_cases hpk : p.1 = k'
      · have h : ¬ k = k' := fun hc => hp (hpk.trans hc.symm)
        have h2 : ¬ k' = k := fun hc => h hc.symm
        simp [dictSet, dictGet, hp, hpk, h, h2]
      · simp [dictSet, dictGet, hp, hpk, ih]

theorem dictUnion_nil (a : Dict) : dictUnion a [] = a := rfl

theorem dictUnion_cons (a : Dict) (p : String × String) (b : Dict) :
    dictUnion a (p :: b) = dictUnion (dictSet a p.1 p.2) b := rfl

theorem dictGetLast_cons (p : String × String) (d : Dict) (k : String) :
    dictGetLast (p :: d) k
      = (dictGetLast d k <|> if p.1 = k then some p.2 else none) := by
  show (match dictGetLast d k with
        | some v => some v
        | none => if p.1 = k then some p.2 else none) = _
  cases dictGetLast d k <;> rfl

theorem dictGet_dictUnion (a b : Dict) (k : String) :
    dictGet (dictUnion a b) k = (dictGetLast b k <|> dictGet a k) := by
  induction b generalizing a with
  | nil => rfl
  | cons p rest ih =>
    rw [dictUnion_cons, ih, dictGet_dictSet, dictGetLast_cons]
    cases hrest : dictGetLast rest k
    · by_cases hk : p.1 = k
      · simp [hk]
      · have hk2 : ¬ k = p.1 := fun hcon => hk hcon.symm
        simp [hk, hk2]
    · simp [hrest]

theorem mergeConfig_headers (t : RequestConfig) (s : Option RequestConfig) (k : String) :
    dictGet (mergeConfig t s).headers k
      = ((s.bind fun c => dictGetLast c.headers k) <|> dictGet t.headers k) := by
  cases s with
  | none => rfl
  | some c => exact dictGet_dictUnion t.headers c.headers k

/-- C1: the claim states that resolveConfig re-merges the instance config at
every chain hop before merging that layer (so an instance-config field would
win over any chain layer).  False: with instance timeout 1000 and a chain
whose inner layer sets timeout 500 (outer layer sets nothing), resolveConfig
keeps 500 — the chain layer wins and the result differs from the algorithm
the claim describes (specC1Resolve), which yields 1000. -/
theorem c1_resolveConfig_counterexample :
    ((resolveConfig { timeout := some 1000 } [some { timeout := some 500 }] none).timeout
       = some 500)
  ∧ ((resolveConfig { timeout := some 1000 }
        [some { timeout := some 500 }, some {}] none).timeout = some 500)
  ∧ ((specC1Resolve { timeout := some 1000 }
        [some { timeout := some 500 }, some {}] none).timeout = some 1000) := by
  exact ⟨rfl, rfl, rfl⟩

/-- C1 (amended): resolveConfig walks the chain from the calling scope to the
root merging each layer directly over the accumulated result, without
re-applying the instance config, and finally merges the per-call config; so
each field resolves to the per-call value when set, else to the value of the
outermost (nearest-root) chain layer that sets it, else to the instance
value, and headers resolve per key with the same precedence.  Shown here for
the timeout, baseURL and method fields and for every header key. -/
theorem c1_resolveConfig_amended (instanceConfig : RequestConfig)
    (chain : List (Option RequestConfig)) (init : Option RequestConfig) :
    ((resolveConfig instanceConfig chain init).timeout
       = ((init.bind fun c => c.timeout)
          <|> (chainOverride (fun layer => layer.bind fun c => c.timeout) chain
          <|> instanceConfig.timeout)))
  ∧ ((resolveConfig instanceConfig chain init).baseURL
       = ((init.bind fun c => c.baseURL)
          <|> (chainOverride (fun layer => layer.bind fun c => c.baseURL) chain
          <|> instanceConfig.baseURL)))
  ∧ ((resolveConfig instanceConfig chain init).method
       = ((init.bind fun c => c.method)
          <|> (chainOverride (fun layer => layer.bind fun c => c.method) chain
          <|> instanceConfig.method)))
  ∧ (∀ k, dictGet (resolveConfig instanceConfig chain init).headers k
       = ((init.bind fun c => dictGetLast c.headers k)
          <|> (chainOverride (fun layer => layer.bind fun c => dictGetLast c.headers k) chain
          <|> dictGet instanceConfig.headers k))) := by
  refine ⟨?_, ?_, ?_, ?_⟩
  · show (mergeConfig (chain.foldl (fun r layer => mergeConfig r layer) instanceConfig)
      init).timeout = _
    rw [mergeConfig_timeout,
      foldl_mergeConfig_char (fun c => c.timeout) (fun layer => layer.bind fun c => c.timeout)
        (fun t s => mergeConfig_timeout t s) chain instanceConfig]
  · show (mergeConfig (chain.foldl (fun r layer => mergeConfig r layer) instanceConfig)
      init).baseURL = _
    rw [mergeConfig_baseURL,
      foldl_mergeConfig_char (fun c => c.baseURL) (fun layer => layer.bind fun c => c.baseURL)
        (fun t s => mergeConfig_baseURL t s) chain instanceConfig]
  · show (mergeConfig (chain.foldl (fun r layer => mergeConfig r layer) instanceConfig)
      init).method = _
    rw [mergeConfig_method,
      foldl_mergeConfig_char (fun c => c.method) (fun layer => layer.bind fun c => c.method)
        (fun t s => mergeConfig_method t s) chain instanceConfig]
  · intro k
    show dictGet (mergeConfig (chain.foldl (fun r layer => mergeConfig r layer) instanceConfig)
      init).headers k = _
    rw [mergeConfig_headers,
      foldl_mergeConfig_char (fun c => dictGet c.headers k)
        (fun layer => layer.bind fun c => dictGetLast c.headers k)
        (fun t s => mergeConfig_headers t s k) chain instanceConfig]

/-- C3: instance config of header A 1 and timeout 1000, one chain layer with
header B 2, per-call override with header A 9: resolveConfig yields headers
A 9 and B 2 (in that insertion order) and timeout 1000. -/
theorem c3_resolveConfig_scenario :
    ((resolveConfig { headers := [("A", "1")], timeout := some 1000 }
        [some { headers := [("B", "2")] }]
        (some { headers := [("A", "9")] })).headers = [("A", "9"), ("B", "2")])
  ∧ ((resolveConfig { headers := [("A", "1")], timeout := some 1000 }
        [some { headers := [("B", "2")] }]
        (some { headers := [("A", "9")] })).timeout = some 1000) := by
  exact ⟨rfl, rfl⟩


theorem appendParams_searchParams (params : List (String × Option String)) (u : URLRec) :
    (appendParams params u).searchParams
      = u.searchParams ++ params.filterMap (fun p => p.2.map fun value => (p.1, value)) := by
  induction params generalizing u with
  | nil => simp [appendParams]
  | cons p rest ih =>
    cases hp : p.2 with
    | none => simp [appendParams, hp, ih, List.filterMap_cons]
    | some value => simp [appendParams, hp, ih, List.filterMap_cons]

theorem appendParams_scheme (params : List (String × Option String)) (u : URLRec) :
    (appendParams params u).scheme = u.scheme := by
  induction params generalizing u with
  | nil => rfl
  | cons p rest ih => cases hp : p.2 <;> simp [appendParams, hp, ih]

theorem appendParams_rest (params : List (String × Option String)) (u : URLRec) :
    (appendParams params u).rest = u.rest := by
  induction params generalizing u with
  | nil => rfl
  | cons p rest ih => cases hp : p.2 <;> simp [appendParams, hp, ih]

theorem parseAbsolute_searchParams (s : String) (u : URLRec)
    (h : parseAbsolute s = some u) : u.searchParams = [] := by
  unfold parseAbsolute at h
  cases hs : splitSchemeAux s.toList with
  | none => rw [hs] at h; exact absurd h (by simp)
  | some pr =>
    cases pr with
    | mk scheme rest =>
      rw [hs] at h
      by_cases hv : validScheme (String.mk scheme)
      · simp [hv] at h
        rw [← h]
      · simp [hv] at h

theorem parseWithBase_searchParams (s : String) (bu : URLRec) (u : URLRec)
    (h : parseWithBase s bu = some u) : u.searchParams = [] := by
  unfold parseWithBase at h
  cases ha : parseAbsolute s with
  | some u0 =>
    rw [ha] at h
    cases h
    exact parseAbsolute_searchParams s u ha
  | none =>
    rw [ha] at h
    cases h
    rfl

theorem parseURL_searchParams (s : String) (base : Option String) (u : URLRec)
    (h : parseURL s base = some u) : u.searchParams = [] := by
  unfold parseURL at h
  cases base with
  | none => exact parseAbsolute_searchParams s u h
  | some b =>
    have h2 : (match parseAbsolute b with
               | none => none
               | some bu => parseWithBase s bu) = some u := h
    cases hb : parseAbsolute b with
    | none => rw [hb] at h2; exact absurd h2 (by simp)
    | some bu =>
      rw [hb] at h2
      exact parseWithBase_searchParams s bu u h2


/-- C7: for every params map, resolveURL appends each entry whose value is
neither null nor undefined as a query parameter in insertion order and skips
every nullable entry entirely: the resulting query parameter list is exactly
the in-order projection of the non-nullable entries. -/
theorem c7_resolveURL_params (url : String) (config : RequestConfig) (isWebSocket : Bool)
    (u : URLRec) (h : resolveURL url config isWebSocket = Except.ok u) :
    u.searchParams
      = (config.params.getD []).filterMap (fun p => p.2.map fun value => (p.1, value)) := by
  unfold resolveURL at h
  cases hp : parseURL (adjustEndpoint url config) config.baseURL with
  | none => rw [hp] at h; exact absurd h (by simp)
  | some u0 =>
    rw [hp] at h
    have h0 : u0.searchParams = [] := parseURL_searchParams _ _ _ hp
    cases isWebSocket with
    | false =>
      have hu : appendParams (config.params.getD []) u0 = u := by simpa using h
      rw [← hu, appendParams_searchParams, h0]
      simp
    | true =>
      have hu : appendParams (config.params.getD [])
          { u0 with scheme := wsRewrite u0.scheme } = u := by simpa using h
      rw [← hu, appendParams_searchParams]
      simp [h0]

/-- C7 witness: params a 1, n null, b 2 on an absolute URL produce exactly
the query parameters a 1 then b 2, in insertion order, with no entry for n. -/
theorem c7_resolveURL_params_witness :
    (URLRec.mk "http" "//x/y" [("a", "1"), ("b", "2")]).searchParams
      = ((some [("a", some "1"), ("n", none), ("b", some "2")]
          : Option (List (String × Option String))).getD []).filterMap
            (fun p => p.2.map fun value => (p.1, value)) :=
  c7_resolveURL_params "http://x/y"
    { params := some [("a", some "1"), ("n", none), ("b", some "2")] } false
    (URLRec.mk "http" "//x/y" [("a", "1"), ("b", "2")]) (by decide)

/-- C8: when the socket-upgrade flag is set, resolveURL rewrites only an
http-prefixed scheme to the corresponding ws scheme: where the plain
resolution yields scheme http the upgrade yields ws, https yields wss, and a
scheme that does not start with http is left unchanged. -/
theorem c8_resolveURL_wsScheme (url : String) (config : RequestConfig) (u : URLRec)
    (h : resolveURL url config false = Except.ok u) :
    ∃ u2, resolveURL url config true = Except.ok u2
      ∧ (u.scheme = "http" → u2.scheme = "ws")
      ∧ (u.scheme = "https" → u2.scheme = "wss")
      ∧ (strStartsWith u.scheme "http" = false → u2.scheme = u.scheme) := by
  unfold resolveURL at h ⊢
  cases hp : parseURL (adjustEndpoint url config) config.baseURL with
  | none => rw [hp] at h; exact absurd h (by simp)
  | some u0 =>
    rw [hp] at h
    have hu : appendParams (config.params.getD []) u0 = u := by simpa using h
    have hscheme : u.scheme = u0.scheme := by rw [← hu, appendParams_scheme]
    refine ⟨appendParams (config.params.getD []) { u0 with scheme := wsRewrite u0.scheme },
      rfl, ?_, ?_, ?_⟩
    · intro hs
      rw [hscheme] at hs
      rw [appendParams_scheme]
      show wsRewrite u0.scheme = "ws"
      rw [hs]
      decide
    · intro hs
      rw [hscheme] at hs
      rw [appendParams_scheme]
      show wsRewrite u0.scheme = "wss"
      rw [hs]
      decide
    · intro hs
      rw [hscheme] at hs
      rw [appendParams_scheme]
      show wsRewrite u0.scheme = u.scheme
      rw [hscheme, wsRewrite, hs]
      simp

/-- C8 witness: an https URL resolves under the socket flag to scheme wss,
instantiating the theorem at a concrete absolute URL. -/
theorem c8_resolveURL_wsScheme_witness :
    ∃ u2, resolveURL "https://x/y" {} true = Except.ok u2
      ∧ ((URLRec.mk "https" "//x/y" []).scheme = "http" → u2.scheme = "ws")
      ∧ ((URLRec.mk "https" "//x/y" []).scheme = "https" → u2.scheme = "wss")
      ∧ (strStartsWith (URLRec.mk "https" "//x/y" []).scheme "http" = false
          → u2.scheme = (URLRec.mk "https" "//x/y" []).scheme) :=
  c8_resolveURL_wsScheme "https://x/y" {} (URLRec.mk "https" "//x/y" []) (by decide)

/-- Whether the configured baseURL, if any, itself parses: the URL
constructor parses a given base before looking at the input. -/
def baseParses (config : RequestConfig) : Bool :=
  match config.baseURL with
  | none => true
  | some b => (parseAbsolute b).isSome

/-- C9: the claim states that an already-absolute input (with no params) is
returned unchanged by resolveURL regardless of the configured baseURL.
False: the URL constructor parses the base first and throws on an
unparseable base string even for an absolute input, so a configured baseURL
that does not itself parse makes resolveURL throw Invalid URL where the
claim asserts success. -/
theorem c9_resolveURL_absolute_counterexample :
    resolveURL "https://a/b" { baseURL := some "%%%" } false
      = Except.error ("Invalid URL: " ++ "https://a/b") := by
  decide

/-- C9 (amended): an input that already parses as an absolute URL is
returned as is by resolveURL whenever the config carries no params and the
configured baseURL is absent or itself parseable (the base value is ignored
for absolute inputs); when a baseURL is configured but unparseable, the call
throws Invalid URL quoting the input even though the input is absolute. -/
theorem c9_resolveURL_absolute (url : String) (config : RequestConfig) (u0 : URLRec)
    (h1 : parseAbsolute url = some u0) (h2 : config.params.getD [] = []) :
    (baseParses config = true → resolveURL url config false = Except.ok u0)
  ∧ (∀ b, config.baseURL = some b → parseAbsolute b = none →
      resolveURL url config false = Except.error ("Invalid URL: " ++ url)) := by
  have hadj : adjustEndpoint url config = url := by
    unfold adjustEndpoint
    cases config.endpoint with
    | none => rfl
    | some e => cases he : e.toList.isEmpty <;> simp [he, h1]
  constructor
  · intro hbp
    unfold resolveURL
    rw [hadj]
    have hp : parseURL url config.baseURL = some u0 := by
      unfold parseURL
      cases hb : config.baseURL with
      | none => exact h1
      | some b =>
        unfold baseParses at hbp
        rw [hb] at hbp
        simp at hbp
        obtain ⟨bu, hbu⟩ : ∃ bu, parseAbsolute b = some bu := by
          cases hab : parseAbsolute b with
          | none => rw [hab] at hbp; exact absurd hbp (by simp)
          | some bu => exact ⟨bu, rfl⟩
        show (match parseAbsolute b with
              | none => none
              | some bu => parseWithBase url bu) = some u0
        rw [hbu]
        show parseWithBase url bu = some u0
        unfold parseWithBase
        rw [h1]
    rw [hp, h2]
    rfl
  · intro b hb hbn
    unfold resolveURL
    rw [hadj]
    have hp : parseURL url config.baseURL = none := by
      rw [hb]
      show (match parseAbsolute b with
            | none => none
            | some bu => parseWithBase url bu) = none
      rw [hbn]
    rw [hp]

/-- C9 witness: the absolute URL resolves to itself under a parseable
baseURL, and throws Invalid URL under an unparseable one. -/
theorem c9_resolveURL_absolute_witness :
    (resolveURL "https://a/b" { baseURL := some "https://other/root" } false
       = Except.ok (URLRec.mk "https" "//a/b" []))
  ∧ (resolveURL "https://a/b" { baseURL := some "%%%" } false
       = Except.error ("Invalid URL: " ++ "https://a/b")) := by
  constructor
  · exact (c9_resolveURL_absolute "https://a/b" { baseURL := some "https://other/root" }
      (URLRec.mk "https" "//a/b" []) (by decide) (by decide)).1 (by decide)
  · exact (c9_resolveURL_absolute "https://a/b" { baseURL := some "%%%" }
      (URLRec.mk "https" "//a/b" []) (by decide) (by decide)).2 "%%%" (by rfl) (by decide)

/-- Whether the caller signal, if any, is not yet aborted (the condition
under which the call proceeds to dispatch). -/
def signalClear (config : RequestConfig) : Bool :=
  match config.signal with
  | none => true
  | some sig => !sig.aborted

theorem invokeResolved_dispatch (config : RequestConfig) (decoders : List String)
    (posMethod : Option String) (url : String) (transport : FetchOutcome) (u : URLRec)
    (hurl : resolveURL url config false = Except.ok u)
    (hsig : signalClear config = true) :
    invokeResolved config decoders posMethod url transport
      = invokeFetchStep config decoders ((posMethod <|> config.method).getD "GET") u transport := by
  unfold invokeResolved
  cases hu : resolveURL url config false with
  | error msg => rw [hurl] at hu; exact absurd hu (by simp)
  | ok u2 =>
    rw [hurl] at hu
    cases hu
    cases hs : config.signal with
    | none => rfl
    | some sig =>
      unfold signalClear at hsig
      rw [hs] at hsig
      simp at hsig
      simp [hsig]

theorem invokeResolvedV2_dispatch (config : RequestConfig) (posMethod : Option String)
    (url : String) (transport : FetchOutcome) (u : URLRec)
    (hurl : resolveURL url config false = Except.ok u)
    (hsig : signalClear config = true) :
    invokeResolvedV2 config posMethod url transport
      = invokeFetchStepV2 config ((posMethod <|> config.method).getD "GET") u transport := by
  unfold invokeResolvedV2
  cases hu : resolveURL url config false with
  | error msg => rw [hurl] at hu; exact absurd hu (by simp)
  | ok u2 =>
    rw [hurl] at hu
    cases hu
    cases hs : config.signal with
    | none => rfl
    | some sig =>
      unfold signalClear at hsig
      rw [hs] at hsig
      simp at hsig
      simp [hsig]

theorem settleV1_invalidStatus (config : RequestConfig) (decoders : List String)
    (u : URLRec) (raw : RawResponse)
    (hval : config.validateStatus.getD (fun status => decide (status < 400)) raw.status
      = false) :
    settleV1 config decoders u (FetchOutcome.success raw)
      = Except.error (JSError.httpError raw.statusText none
          (some ⟨raw.url, (defaultDecoder raw).toOption, raw.status, raw.statusText,
            raw.headers⟩) none) := by
  unfold settleV1
  simp [hval]

theorem settleV1_unknownType (config : RequestConfig) (decoders : List String)
    (u : URLRec) (raw : RawResponse) (tag : String)
    (hval : config.validateStatus.getD (fun status => decide (status < 400)) raw.status
      = true)
    (htype : config.responseType = some tag)
    (hmiss : decoders.contains tag = false) :
    settleV1 config decoders u (FetchOutcome.success raw)
      = Except.error (JSError.typeError ("Unknown responseType: " ++ tag)) := by
  unfold settleV1
  simp at hmiss
  simp [hval, htype, hmiss]

theorem settleV1_defaultOk (config : RequestConfig) (decoders : List String)
    (u : URLRec) (raw : RawResponse) (v : String)
    (hval : config.validateStatus.getD (fun status => decide (status < 400)) raw.status
      = true)
    (htype : config.responseType = none)
    (hdec : defaultDecoder raw = Except.ok v) :
    settleV1 config decoders u (FetchOutcome.success raw)
      = Except.ok ⟨raw.url, some v, raw.status, raw.statusText, raw.headers⟩ := by
  unfold settleV1
  simp [hval, htype, hdec]

/-- C6: a call whose caller-supplied cancellation signal is already aborted
when the call is made throws that signal's reason immediately, for every
transport behavior, and issues no dispatch (the transport never receives an
init). -/
theorem c6_invoke_abortedSignal (instanceConfig : RequestConfig)
    (chain : List (Option RequestConfig)) (decoders : List String)
    (posMethod : Option String) (url : String) (init : Option RequestConfig)
    (transport : FetchOutcome) (u : URLRec) (s : Signal)
    (hurl : resolveURL url (resolveConfig instanceConfig chain init) false = Except.ok u)
    (hsig : (resolveConfig instanceConfig chain init).signal = some s)
    (haborted : s.aborted = true) :
    invoke instanceConfig chain decoders posMethod url init transport
      = ⟨Except.error (JSError.thrown s.reason), none⟩ := by
  unfold invoke invokeResolved
  cases hu : resolveURL url (resolveConfig instanceConfig chain init) false with
  | error msg => rw [hurl] at hu; exact absurd hu (by simp)
  | ok u2 =>
    cases hs : (resolveConfig instanceConfig chain init).signal with
    | none => rw [hsig] at hs; exact absurd hs (by simp)
    | some sig =>
      rw [hsig] at hs
      cases hs
      simp [haborted]

/-- C6 witness: a concrete call with an already-aborted signal throws the
reason and records no dispatch. -/
theorem c6_invoke_abortedSignal_witness :
    invoke {} [] decoderTagsV1 none "http://x/"
        (some { signal := some (Signal.mk true "why") })
        (FetchOutcome.failure (FetchCause.network "unused"))
      = ⟨Except.error (JSError.thrown "why"), none⟩ :=
  c6_invoke_abortedSignal {} [] decoderTagsV1 none "http://x/"
    (some { signal := some (Signal.mk true "why") })
    (FetchOutcome.failure (FetchCause.network "unused"))
    (URLRec.mk "http" "//x/" []) (Signal.mk true "why")
    (by decide) (by decide) (by decide)

/-- C5: when the transport delivers a response whose status fails validation
(default or supplied) and whose body the default content-type decoder throws
on, the call throws the status-validation HTTPError whose attached response
has data null: the decode failure is swallowed and never becomes the thrown
error. -/
theorem c5_invoke_errorBodySwallowed (instanceConfig : RequestConfig)
    (chain : List (Option RequestConfig)) (decoders : List String)
    (posMethod : Option String) (url : String) (init : Option RequestConfig)
    (raw : RawResponse) (u : URLRec) (e : String)
    (hurl : resolveURL url (resolveConfig instanceConfig chain init) false = Except.ok u)
    (hsig : signalClear (resolveConfig instanceConfig chain init) = true)
    (hval : (resolveConfig instanceConfig chain init).validateStatus.getD
        (fun status => decide (status < 400)) raw.status = false)
    (hdec : defaultDecoder raw = Except.error e) :
    (invoke instanceConfig chain decoders posMethod url init
        (FetchOutcome.success raw)).outcome
      = Except.error (JSError.httpError raw.statusText none
          (some ⟨raw.url, none, raw.status, raw.statusText, raw.headers⟩) none) := by
  unfold invoke
  rw [invokeResolved_dispatch _ decoders posMethod url _ u hurl hsig]
  show settleV1 _ decoders u (FetchOutcome.success raw) = _
  rw [settleV1_invalidStatus _ decoders u raw hval, hdec]
  rfl

/-- C5 witness: a 500 response declared as JSON with a body the JSON decoder
throws on still produces the status error with data null. -/
theorem c5_invoke_errorBodySwallowed_witness :
    (invoke {} [] decoderTagsV1 none "http://x/" none
        (FetchOutcome.success (RawResponse.mk "http://x/" 500 "Internal Server Error"
          [("Content-Type", "application/json")] (Except.error "SyntaxError")
          "" "" "" "" ""))).outcome
      = Except.error (JSError.httpError "Internal Server Error" none
          (some (ResponseV.mk "http://x/" none 500 "Internal Server Error"
            [("Content-Type", "application/json")])) none) :=
  c5_invoke_errorBodySwallowed {} [] decoderTagsV1 none "http://x/" none
    (RawResponse.mk "http://x/" 500 "Internal Server Error"
      [("Content-Type", "application/json")] (Except.error "SyntaxError") "" "" "" "" "")
    (URLRec.mk "http" "//x/" []) "SyntaxError"
    (by decide) (by decide) (by decide) (by decide)

/-- C4: the claim states that a call naming an unregistered responseType tag
throws before any network dispatch.  False: the registry check of the source
runs only after the fetch completed and its status was validated, so the
transport does receive the request.  At a concrete call with responseType
xml the outcome is the Unknown responseType TypeError, yet an init was
dispatched. -/
theorem c4_unknownResponseType_counterexample :
    ((invoke {} [] decoderTagsV1 none "http://x/" (some { responseType := some "xml" })
        (FetchOutcome.success (RawResponse.mk "http://x/" 200 "OK"
          [("Content-Type", "text/plain")] (Except.error "ignored") "hello" "" "" "" ""))).outcome
      = Except.error (JSError.typeError "Unknown responseType: xml"))
  ∧ ((invoke {} [] decoderTagsV1 none "http://x/" (some { responseType := some "xml" })
        (FetchOutcome.success (RawResponse.mk "http://x/" 200 "OK"
          [("Content-Type", "text/plain")] (Except.error "ignored") "hello" "" "" "" ""))).sent
      = some (SentInit.mk "GET" [] none)) := by
  exact ⟨by decide, by decide⟩

/-- C4 (amended): a call whose resolved config names a responseType tag with
no registered decoder throws the TypeError Unknown responseType with that
tag, but only after the network dispatch: the transport receives the built
init, the response arrives and passes status validation, and the registry
miss is detected at decode time. -/
theorem c4_unknownResponseType_amended (instanceConfig : RequestConfig)
    (chain : List (Option RequestConfig)) (decoders : List String)
    (posMethod : Option String) (url : String) (init : Option RequestConfig)
    (raw : RawResponse) (tag : String) (u : URLRec)
    (hurl : resolveURL url (resolveConfig instanceConfig chain init) false = Except.ok u)
    (hsig : signalClear (resolveConfig instanceConfig chain init) = true)
    (htype : (resolveConfig instanceConfig chain init).responseType = some tag)
    (hmiss : decoders.contains tag = false)
    (hval : (resolveConfig instanceConfig chain init).validateStatus.getD
        (fun status => decide (status < 400)) raw.status = true) :
    ((invoke instanceConfig chain decoders posMethod url init
        (FetchOutcome.success raw)).outcome
      = Except.error (JSError.typeError ("Unknown responseType: " ++ tag)))
  ∧ ((invoke instanceConfig chain decoders posMethod url init
        (FetchOutcome.success raw)).sent
      = some ⟨((posMethod <|> (resolveConfig instanceConfig chain init).method).getD "GET"),
          (buildInitV1 (resolveConfig instanceConfig chain init)).1,
          (buildInitV1 (resolveConfig instanceConfig chain init)).2⟩) := by
  constructor
  · unfold invoke
    rw [invokeResolved_dispatch _ decoders posMethod url _ u hurl hsig]
    show settleV1 _ decoders u (FetchOutcome.success raw) = _
    exact settleV1_unknownType _ decoders u raw tag hval htype hmiss
  · unfold invoke
    rw [invokeResolved_dispatch _ decoders posMethod url _ u hurl hsig]
    rfl

/-- C4 witness: instantiates the amended theorem at the xml scenario. -/
theorem c4_unknownResponseType_amended_witness :
    ((invoke {} [] decoderTagsV1 none "http://x/" (some { responseType := some "xml" })
        (FetchOutcome.success (RawResponse.mk "http://x/" 200 "OK"
          [("Content-Type", "text/plain")] (Except.error "ignored") "hello" "" "" "" ""))).outcome
      = Except.error (JSError.typeError ("Unknown responseType: " ++ "xml")))
  ∧ ((invoke {} [] decoderTagsV1 none "http://x/" (some { responseType := some "xml" })
        (FetchOutcome.success (RawResponse.mk "http://x/" 200 "OK"
          [("Content-Type", "text/plain")] (Except.error "ignored") "hello" "" "" "" ""))).sent
      = some ⟨((none <|> (resolveConfig {} []
            (some { responseType := some "xml" })).method).getD "GET"),
          (buildInitV1 (resolveConfig {} [] (some { responseType := some "xml" }))).1,
          (buildInitV1 (resolveConfig {} [] (some { responseType := some "xml" }))).2⟩) :=
  c4_unknownResponseType_amended {} [] decoderTagsV1 none "http://x/"
    (some { responseType := some "xml" })
    (RawResponse.mk "http://x/" 200 "OK" [("Content-Type", "text/plain")]
      (Except.error "ignored") "hello" "" "" "" "")
    "xml" (URLRec.mk "http" "//x/" [])
    (by decide) (by decide) (by decide) (by decide) (by decide)

theorem invokeResolved_sent_eq (config : RequestConfig) (decoders : List String)
    (posMethod : Option String) (url : String) (transport : FetchOutcome) (si : SentInit)
    (hsent : (invokeResolved config decoders posMethod url transport).sent = some si) :
    si = ⟨(posMethod <|> config.method).getD "GET",
          (buildInitV1 config).1, (buildInitV1 config).2⟩ := by
  unfold invokeResolved at hsent
  cases hu : resolveURL url config false with
  | error msg =>
    rw [hu] at hsent
    simp at hsent
  | ok u2 =>
    rw [hu] at hsent
    cases hs : config.signal with
    | none =>
      rw [hs] at hsent
      unfold invokeFetchStep at hsent
      simp at hsent
      exact hsent.symm
    | some sig =>
      rw [hs] at hsent
      cases ha : sig.aborted with
      | true =>
        simp [ha] at hsent
      | false =>
        unfold invokeFetchStep at hsent
        simp [ha] at hsent
        exact hsent.symm

/-- C10: the verb shortcuts spread the caller config after their own fixed
fields, so a caller config that itself sets method silently overrides the
verb's method in the dispatched request (for get and post alike), and for
the data-carrying shortcuts a caller config that sets data makes the
positional data argument irrelevant to the whole call result. -/
theorem c10_shortcutSpread_override :
    (∀ (instanceConfig : RequestConfig) (chain : List (Option RequestConfig))
       (decoders : List String) (url : String) (cfg : RequestConfig)
       (transport : FetchOutcome) (m : String) (si : SentInit),
      cfg.method = some m →
      (getV1 instanceConfig chain decoders url (some cfg) transport).sent = some si →
      si.method = m)
  ∧ (∀ (instanceConfig : RequestConfig) (chain : List (Option RequestConfig))
       (decoders : List String) (url : String) (dataA dataB : Option JSData)
       (cfg : RequestConfig) (transport : FetchOutcome) (d : JSData),
      cfg.data = some d →
      postV1 instanceConfig chain decoders url dataA (some cfg) transport
        = postV1 instanceConfig chain decoders url dataB (some cfg) transport)
  ∧ (∀ (instanceConfig : RequestConfig) (chain : List (Option RequestConfig))
       (decoders : List String) (url : String) (dataPos : Option JSData)
       (cfg : RequestConfig) (transport : FetchOutcome) (m : String) (si : SentInit),
      cfg.method = some m →
      (postV1 instanceConfig chain decoders url dataPos (some cfg) transport).sent
        = some si →
      si.method = m) := by
  refine ⟨?_, ?_, ?_⟩
  · intro instanceConfig chain decoders url cfg transport m si hm hsent
    have hse := invokeResolved_sent_eq
      (resolveConfig instanceConfig chain (some (shortcutConfig "get" (some cfg))))
      decoders none url transport si hsent
    have hmethod : (resolveConfig instanceConfig chain
        (some (shortcutConfig "get" (some cfg)))).method = some m := by
      show (mergeConfig (chain.foldl (fun acc layer => mergeConfig acc layer) instanceConfig)
        (some (shortcutConfig "get" (some cfg)))).method = some m
      rw [mergeConfig_method]
      simp [shortcutConfig, hm]
    rw [hse]
    show ((none <|> (resolveConfig instanceConfig chain
      (some (shortcutConfig "get" (some cfg)))).method).getD "GET") = m
    rw [hmethod]
    rfl
  · intro instanceConfig chain decoders url dataA dataB cfg transport d hd
    have hc : shortcutDataConfig "post" dataA (some cfg)
        = shortcutDataConfig "post" dataB (some cfg) := by
      simp [shortcutDataConfig, hd]
    unfold postV1
    rw [hc]
  · intro instanceConfig chain decoders url dataPos cfg transport m si hm hsent
    have hse := invokeResolved_sent_eq
      (resolveConfig instanceConfig chain (some (shortcutDataConfig "post" dataPos (some cfg))))
      decoders none url transport si hsent
    have hmethod : (resolveConfig instanceConfig chain
        (some (shortcutDataConfig "post" dataPos (some cfg)))).method = some m := by
      show (mergeConfig (chain.foldl (fun acc layer => mergeConfig acc layer) instanceConfig)
        (some (shortcutDataConfig "post" dataPos (some cfg)))).method = some m
      rw [mergeConfig_method]
      simp [shortcutDataConfig, hm]
    rw [hse]
    show ((none <|> (resolveConfig instanceConfig chain
      (some (shortcutDataConfig "post" dataPos (some cfg)))).method).getD "GET") = m
    rw [hmethod]
    rfl

/-- C10 witness: get with a config method POST dispatches method POST, post
with positional data is unaffected by that positional argument when the
config sets data, and post with config method PUT dispatches PUT. -/
theorem c10_shortcutSpread_override_witness :
    ((SentInit.mk "POST" [] none).method = "POST")
  ∧ (postV1 {} [] decoderTagsV1 "http://x/" (some (JSData.jsObject "pos"))
        (some { data := some (JSData.jsObject "cfg") })
        (FetchOutcome.failure (FetchCause.network "down"))
      = postV1 {} [] decoderTagsV1 "http://x/" none
        (some { data := some (JSData.jsObject "cfg") })
        (FetchOutcome.failure (FetchCause.network "down"))) := by
  constructor
  · exact c10_shortcutSpread_override.1 {} [] decoderTagsV1 "http://x/"
      { method := some "POST" } (FetchOutcome.failure (FetchCause.network "down"))
      "POST" (SentInit.mk "POST" [] none) (by rfl) (by decide)
  · exact c10_shortcutSpread_override.2.1 {} [] decoderTagsV1 "http://x/"
      (some (JSData.jsObject "pos")) none { data := some (JSData.jsObject "cfg") }
      (FetchOutcome.failure (FetchCause.network "down")) (JSData.jsObject "cfg") (by rfl)

/-- C2: the claim states that the bare callable resolves regardless of status
whenever the caller supplies no validateStatus.  False for the fetch-based
core variant, whose bare call defaults the predicate to status below 400: a
concrete bare call with no validateStatus anywhere and a 500 response throws
the status HTTPError instead of resolving. -/
theorem c2_statusValidation_counterexample :
    (invoke {} [] decoderTagsV1 none "http://x/" none
        (FetchOutcome.success (RawResponse.mk "http://x/" 500 "Internal Server Error"
          [("Content-Type", "application/json")] (Except.error "SyntaxError")
          "" "" "" "" ""))).outcome
      = Except.error (JSError.httpError "Internal Server Error" none
          (some (ResponseV.mk "http://x/" none 500 "Internal Server Error"
            [("Content-Type", "application/json")])) none) := by
  decide

/-- C2 (amended): the verb shortcuts reject by default on every status at
least 400 in both variants, but the bare callable differs per variant: in
the fetch-based core variant the bare call itself applies the default
predicate status below 400, throwing the status HTTPError on every status at
least 400 even with no caller-supplied validateStatus and resolving below
400; in the undici variant the bare call performs no status validation at all
and resolves for every status, validation happening only in the decode step
the verb shortcuts run, whose injected default rejects status at least 400.
Stated as: (1) V1 call with unset validateStatus throws on status at least
400 (the verb shortcuts reach this same path since they inject no predicate);
(2) V1 call with unset validateStatus resolves below 400; (3) V2 bare call
resolves at every status; (4) V2 get shortcut with no caller predicate
throws STATUS_ERROR on status at least 400. -/
theorem c2_statusValidation_amended :
    (∀ (instanceConfig : RequestConfig) (chain : List (Option RequestConfig))
       (decoders : List String) (posMethod : Option String) (url : String)
       (init : Option RequestConfig) (raw : RawResponse) (u : URLRec),
      resolveURL url (resolveConfig instanceConfig chain init) false = Except.ok u →
      signalClear (resolveConfig instanceConfig chain init) = true →
      (resolveConfig instanceConfig chain init).validateStatus = none →
      400 ≤ raw.status →
      (invoke instanceConfig chain decoders posMethod url init
          (FetchOutcome.success raw)).outcome
        = Except.error (JSError.httpError raw.statusText none
            (some ⟨raw.url, (defaultDecoder raw).toOption, raw.status, raw.statusText,
              raw.headers⟩) none))
  ∧ (∀ (instanceConfig : RequestConfig) (chain : List (Option RequestConfig))
       (decoders : List String) (posMethod : Option String) (url : String)
       (init : Option RequestConfig) (raw : RawResponse) (u : URLRec) (v : String),
      resolveURL url (resolveConfig instanceConfig chain init) false = Except.ok u →
      signalClear (resolveConfig instanceConfig chain init) = true →
      (resolveConfig instanceConfig chain init).validateStatus = none →
      (resolveConfig instanceConfig chain init).responseType = none →
      raw.status < 400 →
      defaultDecoder raw = Except.ok v →
      (invoke instanceConfig chain decoders posMethod url init
          (FetchOutcome.success raw)).outcome
        = Except.ok ⟨raw.url, some v, raw.status, raw.statusText, raw.headers⟩)
  ∧ (∀ (instanceConfig : RequestConfig) (posMethod : Option String) (url : String)
       (init : Option RequestConfig) (raw : RawResponse) (u : URLRec),
      resolveURL url (resolveConfigV2 instanceConfig init) false = Except.ok u →
      signalClear (resolveConfigV2 instanceConfig init) = true →
      (invokeV2 instanceConfig posMethod url init (FetchOutcome.success raw)).outcome
        = Except.ok ⟨raw, resolveConfigV2 instanceConfig init⟩)
  ∧ (∀ (instanceConfig : RequestConfig) (decoders : List String) (url : String)
       (cfg : RequestConfig) (raw : RawResponse) (u : URLRec),
      resolveURL url (resolveConfigV2 instanceConfig
        (some (shortcutConfigV2 "get" (some cfg)))) false = Except.ok u →
      signalClear (resolveConfigV2 instanceConfig
        (some (shortcutConfigV2 "get" (some cfg)))) = true →
      cfg.validateStatus = none →
      400 ≤ raw.status →
      (getV2 instanceConfig decoders url (some cfg) (FetchOutcome.success raw)).1
        = Except.error (JSError.httpError raw.statusText (some "STATUS_ERROR")
            (some ⟨raw.url, none, raw.status, raw.statusText, raw.headers⟩) none)) := by
  refine ⟨?_, ?_, ?_, ?_⟩
  · intro instanceConfig chain decoders posMethod url init raw u hurl hsig hnone h400
    unfold invoke
    rw [invokeResolved_dispatch _ decoders posMethod url _ u hurl hsig]
    show settleV1 _ decoders u (FetchOutcome.success raw) = _
    have hval : (resolveConfig instanceConfig chain init).validateStatus.getD
        (fun status => decide (status < 400)) raw.status = false := by
      rw [hnone]
      exact decide_eq_false (Nat.not_lt.mpr h400)
    exact settleV1_invalidStatus _ decoders u raw hval
  · intro instanceConfig chain decoders posMethod url init raw u v hurl hsig hnone
      htype hlt hdec
    unfold invoke
    rw [invokeResolved_dispatch _ decoders posMethod url _ u hurl hsig]
    show settleV1 _ decoders u (FetchOutcome.success raw) = _
    have hval : (resolveConfig instanceConfig chain init).validateStatus.getD
        (fun status => decide (status < 400)) raw.status = true := by
      rw [hnone]
      exact decide_eq_true hlt
    exact settleV1_defaultOk _ decoders u raw v hval htype hdec
  · intro instanceConfig posMethod url init raw u hurl hsig
    unfold invokeV2
    rw [invokeResolvedV2_dispatch _ posMethod url _ u hurl hsig]
    rfl
  · intro instanceConfig decoders url cfg raw u hurl hsig hcfg h400
    unfold getV2 invokeV2
    rw [invokeResolvedV2_dispatch _ none url _ u hurl hsig]
    show decodeV2 decoders ⟨raw, resolveConfigV2 instanceConfig
      (some (shortcutConfigV2 "get" (some cfg)))⟩ = _
    have hvs : (resolveConfigV2 instanceConfig
        (some (shortcutConfigV2 "get" (some cfg)))).validateStatus
          = some validateStatusV2 := by
      simp [resolveConfigV2, mergeConfig, shortcutConfigV2, hcfg]
    have hfalse : validateStatusV2 raw.status = false := by
      unfold validateStatusV2
      exact decide_eq_false (Nat.not_lt.mpr h400)
    simp [decodeV2, hvs, hfalse]

/-- C2 witness: all four parts of the amended statement instantiated at
concrete calls: a V1 bare 500 call throws, a V1 bare 200 call resolves, a V2
bare 500 call resolves, and a V2 get shortcut on a 500 response throws the
STATUS_ERROR. -/
theorem c2_statusValidation_amended_witness :
    ((invoke {} [] decoderTagsV1 none "http://x/" none
        (FetchOutcome.success (RawResponse.mk "http://x/" 500 "Internal Server Error"
          [("Content-Type", "application/json")] (Except.error "SyntaxError")
          "" "" "" "" ""))).outcome
      = Except.error (JSError.httpError "Internal Server Error" none
          (some (ResponseV.mk "http://x/" none 500 "Internal Server Error"
            [("Content-Type", "application/json")])) none))
  ∧ ((invoke {} [] decoderTagsV1 none "http://x/" none
        (FetchOutcome.success (RawResponse.mk "http://x/" 200 "OK"
          [("Content-Type", "text/plain")] (Except.error "ignored")
          "hello" "" "" "" ""))).outcome
      = Except.ok (ResponseV.mk "http://x/" (some "hello") 200 "OK"
          [("Content-Type", "text/plain")]))
  ∧ ((invokeV2 {} none "http://x/" none
        (FetchOutcome.success (RawResponse.mk "http://x/" 500 "Internal Server Error"
          [("Content-Type", "application/json")] (Except.error "SyntaxError")
          "" "" "" "" ""))).outcome
      = Except.ok ⟨RawResponse.mk "http://x/" 500 "Internal Server Error"
          [("Content-Type", "application/json")] (Except.error "SyntaxError")
          "" "" "" "" "", resolveConfigV2 {} none⟩)
  ∧ ((getV2 {} decoderTagsV2 "http://x/" (some {})
        (FetchOutcome.success (RawResponse.mk "http://x/" 500 "Internal Server Error"
          [("Content-Type", "application/json")] (Except.error "SyntaxError")
          "" "" "" "" ""))).1
      = Except.error (JSError.httpError "Internal Server Error" (some "STATUS_ERROR")
          (some (ResponseV.mk "http://x/" none 500 "Internal Server Error"
            [("Content-Type", "application/json")])) none)) := by
  refine ⟨?_, ?_, ?_, ?_⟩
  · exact c2_statusValidation_amended.1 {} [] decoderTagsV1 none "http://x/" none
      (RawResponse.mk "http://x/" 500 "Internal Server Error"
        [("Content-Type", "application/json")] (Except.error "SyntaxError") "" "" "" "" "")
      (URLRec.mk "http" "//x/" []) (by decide) (by decide) (by rfl) (by decide)
  · exact c2_statusValidation_amended.2.1 {} [] decoderTagsV1 none "http://x/" none
      (RawResponse.mk "http://x/" 200 "OK" [("Content-Type", "text/plain")]
        (Except.error "ignored") "hello" "" "" "" "")
      (URLRec.mk "http" "//x/" []) "hello"
      (by decide) (by decide) (by rfl) (by rfl) (by decide) (by decide)
  · exact c2_statusValidation_amended.2.2.1 {} none "http://x/" none
      (RawResponse.mk "http://x/" 500 "Internal Server Error"
        [("Content-Type", "application/json")] (Except.error "SyntaxError") "" "" "" "" "")
      (URLRec.mk "http" "//x/" []) (by decide) (by decide)
  · exact c2_statusValidation_amended.2.2.2 {} decoderTagsV2 "http://x/" {}
      (RawResponse.mk "http://x/" 500 "Internal Server Error"
        [("Content-Type", "application/json")] (Except.error "SyntaxError") "" "" "" "" "")
      (URLRec.mk "http" "//x/" []) (by decide) (by decide) (by rfl) (by decide)
